import Mathlib

/-!
# Verification of `run_train_punc.py` (VN_Punc)

A shallow embedding of the punctuation-restoration training/evaluation
driver `src/run_train_punc.py`, together with theorems settling the frozen
claims about it.

Two layers are modelled:

* the word-level decoding of evaluation output (the inner loops at lines
  398-410 and 486-498 of the source), as pure functions over lists of
  label ids; and
* the observable control flow of `main` (device setup, configuration
  checks, checkpoint I/O, data loading, the epoch/batch loop, report
  writing), as a trace of events computed from a configuration record.

The repository imports `punc_dataset.py`, which is not part of the source
tree given here; where a claim depends on it (the construction of the
`label_id` row), the definition is modelled from the specification and
marked as such in its doc comment.
-/

namespace VNPunc

/-! ## Label map and per-position decoding

`label_map = {i: label for i, label in enumerate(label_list, 1)}`
(lines 278, 378, 465 of the source): keys are `1 .. len(label_list)`,
`label_map[i] = label_list[i-1]`, and `len(label_map) = len(label_list)`. -/

/-- Dictionary lookup `label_map[i]` / `label_map.get(i)`: `some` exactly on
keys `1 .. label_list.length`. -/
def labelMapGet (labelList : List String) (i : Nat) : Option String :=
  if i = 0 then none else labelList.get? (i - 1)

/-- `label_map.get(logits[i][j], 'PAD')` (lines 410, 498): decoding of a
predicted label id, total, with `'PAD'` as the fallback. -/
def decodePredId (labelList : List String) (i : Nat) : String :=
  (labelMapGet labelList i).getD "PAD"

/-! ## The evaluation decoding loop (lines 398-410 and 486-498)

For one example, the source walks the `label_id` row from position 1
(`j == 0: continue`), breaks — flushing the two accumulators into the flat
`y_true`/`y_pred` lists — at the first position whose id equals
`len(label_map)`, and otherwise appends `label_map[label_ids[i][j]]`
(a plain dict index: `KeyError` on a missing key) and
`label_map.get(logits[i][j], 'PAD')`.  A loop that runs off the end of the
row without hitting the break flushes nothing.  Failure (`KeyError`, or an
out-of-range index into the logits row) is `none`. -/

/-- One example's walk, over the row tails from position 1 onward.
`a1`/`a2` are the `temp_1`/`temp_2` accumulators (in reverse). -/
def decodeRowAux (labelList : List String) :
    List Nat → List Nat → List String → List String →
    Option (List String × List String)
  | [], _, _, _ => some ([], [])
  | t :: ts, ps, a1, a2 =>
    if t = labelList.length then some (a1.reverse, a2.reverse)
    else
      match labelMapGet labelList t, ps with
      | none, _ => none
      | some _, [] => none
      | some name, p :: ps' =>
          decodeRowAux labelList ts ps' (name :: a1) (decodePredId labelList p :: a2)

/-- The contribution of one example `(label_ids[i], logits[i])` to the flat
`y_true`/`y_pred` lists: both rows are walked from position 1. -/
def decodeExample (labelList : List String) (row preds : List Nat) :
    Option (List String × List String) :=
  decodeRowAux labelList (row.drop 1) (preds.drop 1) [] []

/-- Index of the first occurrence of `v` in a list. -/
def firstIndexEq (v : Nat) : List Nat → Option Nat
  | [] => none
  | t :: ts => if t = v then some 0 else (firstIndexEq v ts).map (· + 1)

/-- The position at which the source loop's `break` fires for a row: the
first `j ≥ 1` with `row[j] == len(label_map)` (lines 404, 492). -/
def evalLoopStopIndex (labelList : List String) (row : List Nat) : Option Nat :=
  (firstIndexEq labelList.length (row.drop 1)).map (· + 1)

/-- The position of the first sentinel in a row, where the sentinel is the
value `num_labels = len(label_list) + 1` that the specification says
terminates `label_id`: the first `j ≥ 1` with `row[j] = len(label_list) + 1`. -/
def specSentinelIndex (labelList : List String) (row : List Nat) : Option Nat :=
  (firstIndexEq (labelList.length + 1) (row.drop 1)).map (· + 1)

/-- Modelled from the spec: the `label_id` row built by the alignment
encoder (`convert_examples_to_features` in `punc_dataset.py`, which is not
in the source tree).  Spec §4.1 step 5: position 0 emits 0; each retained
word emits `label_list.index(word_label) + 1`; immediately after the last
real word one sentinel equal to `len(label_list) + 1`; remaining positions
are padded with 0 up to `max_seq_length`. -/
def buildLabelId (labelList wordLabels : List String) (maxSeqLength : Nat) : List Nat :=
  let ids := wordLabels.map (fun w => labelList.indexOf w + 1)
  let core := 0 :: (ids ++ [labelList.length + 1])
  core ++ List.replicate (maxSeqLength - core.length) 0

/-! ## Checkpoint restoration (lines 275-289)

`torch.save` receives the dict with keys
`epoch, model_state_dict, optimizer_state_dict, loss, scheduler`
(lines 344-350); `torch.load` restores all of them and sets
`start_epoch = int(checkpoint['epoch']) + 1` (lines 283-289).  The opaque
state blobs (state dicts, running loss) are stand-ins of type `Nat`. -/

/-- The five-field snapshot written by `torch.save` (lines 344-350). -/
structure Checkpoint where
  epoch : Nat
  modelStateDict : Nat
  optimizerStateDict : Nat
  loss : Nat
  scheduler : Nat
deriving DecidableEq, Repr

/-- The dict literal passed to `torch.save`, key order as in lines 344-350. -/
def checkpointPayload (ck : Checkpoint) : List (String × Nat) :=
  [("epoch", ck.epoch), ("model_state_dict", ck.modelStateDict),
   ("optimizer_state_dict", ck.optimizerStateDict), ("loss", ck.loss),
   ("scheduler", ck.scheduler)]

/-- The mutable state established by lines 275-289. -/
structure ResumeState where
  startEpoch : Nat
  modelState : Nat
  optimizerState : Nat
  trLoss : Nat
  schedulerState : Nat
deriving DecidableEq, Repr

/-- Lines 275-289: `start_epoch = 0`, `tr_loss = 0`, then, if the checkpoint
file exists, every field is overwritten from the loaded dict and
`start_epoch` becomes the saved epoch plus one. -/
def initResume (initModel initOpt initSched : Nat) :
    Option Checkpoint → ResumeState
  | none => ⟨0, initModel, initOpt, 0, initSched⟩
  | some ck => ⟨ck.epoch + 1, ck.modelStateDict, ck.optimizerStateDict,
                ck.loss, ck.scheduler⟩

/-! ## The observable control flow of `main`

`main` is modelled as a trace of observable events computed from a
configuration record.  An exception truncates the trace at the
`raiseError` event.  Events that create or read files carry the path. -/

/-- The `ValueError`s `main` can raise (lines 163, 174, 177, 184, 358/444). -/
inductive ErrTag where
  | gradAccum
  | trainEval
  | outputDir
  | taskName
  | evalOn
deriving DecidableEq, Repr

/-- Observable events of one `main` run, in source order. -/
inductive Event where
  /-- Lines 151-159: device selection, `torch.cuda.set_device`, and (in
  distributed mode) `init_process_group`. -/
  | deviceSetup
  /-- A `raise ValueError(...)`; nothing follows it in the trace. -/
  | raiseError (tag : ErrTag)
  /-- Line 179: `os.makedirs(args.output_dir)`. -/
  | makeOutputDir
  /-- Lines 191-231: tokenizer and pretrained model loading. -/
  | modelLoad
  /-- Lines 236 and 292-310: training examples read and the `DataLoader`
  built with the (reassigned) `args.train_batch_size`. -/
  | trainDataLoad (batchSize : Nat)
  /-- Lines 283-289: `torch.load` of the checkpoint file. -/
  | checkpointLoad (path : String)
  /-- Line 338: `optimizer.step()`. -/
  | optimizerStep
  /-- Line 339: `scheduler.step()`. -/
  | schedulerStep
  /-- Line 340: `model.zero_grad()`. -/
  | zeroGrad
  /-- Line 341: `global_step += 1`. -/
  | globalStepIncr
  /-- Lines 344-350: `torch.save(..., PATH)`. -/
  | checkpointWrite (path : String)
  /-- Lines 353-356 / 439-442: eval examples for a split are read. -/
  | evalDataLoad (split : String)
  /-- Lines 416-419: `eval_results.txt` written. -/
  | evalReportWrite (path : String)
  /-- Lines 421-429: trained model, tokenizer and config saved. -/
  | modelSave
  /-- Lines 431-434: model reloaded from the output dir (no-train path). -/
  | modelReload
  /-- Lines 504-507: `test_results.txt` written. -/
  | testReportWrite (path : String)
deriving DecidableEq, Repr

/-- A `main` configuration: the arguments and filesystem facts the control
flow branches on.  `taskName` stands for `args.task_name.lower()`;
`distRank` is `torch.distributed.get_rank()` (consulted only when
`localRank ≠ -1`); `numBatches` is the number of batches one epoch's
`DataLoader` yields; `numEpochs` is `int(args.num_train_epochs)`. -/
structure Config where
  gradAccumSteps : Int
  doTrain : Bool
  doEval : Bool
  evalEveryEpoch : Bool
  evalOn : String
  taskName : String
  localRank : Int
  distRank : Nat
  outputDir : String
  outputDirExists : Bool
  outputDirNonempty : Bool
  checkpointExists : Bool
  ckptEpoch : Nat
  numEpochs : Nat
  numBatches : Nat
  trainBatchSize : Nat
deriving DecidableEq, Repr

/-- `PATH = os.path.join(args.output_dir, 'checkpoint.ckt')` (line 281). -/
def ckptPath (c : Config) : String := c.outputDir ++ "/checkpoint.ckt"

/-- Line 167: `args.train_batch_size = args.train_batch_size //
args.gradient_accumulation_steps`, executed right after the accumulation
check and before any data loading. -/
def afterAccumCheck (c : Config) : Config :=
  { c with trainBatchSize := c.trainBatchSize / c.gradAccumSteps.toNat }

/-- The guard `args.local_rank == -1 or torch.distributed.get_rank() == 0`
(lines 352 and 438). -/
def rankZeroGuard (c : Config) : Bool :=
  c.localRank == -1 || c.distRank == 0

/-- Whether `args.eval_on` names a known split (lines 353-358, 439-444). -/
def evalOnValid (c : Config) : Bool :=
  c.evalOn == "dev" || c.evalOn == "test"

/-- Whether the per-batch evaluation block (lines 352-419) raises the
unknown-split error: it runs when `do_eval` and `eval_every_epoch` hold and
the rank guard passes, and raises iff `eval_on` is unknown. -/
def batchRaises (c : Config) : Bool :=
  c.doEval && c.evalEveryEpoch && rankZeroGuard c && !evalOnValid c

/-- The events of one training batch (lines 317-419): the accumulation
block fires when `(step + 1) % gradient_accumulation_steps == 0`; the
checkpoint is saved unconditionally; then, under the guard of line 352,
the per-batch evaluation runs (or raises on an unknown split). -/
def perBatchEvents (c : Config) (step : Nat) : List Event :=
  (if (step + 1) % c.gradAccumSteps.toNat = 0 then
     [Event.optimizerStep, Event.schedulerStep, Event.zeroGrad,
      Event.globalStepIncr]
   else []) ++
  [Event.checkpointWrite (ckptPath c)] ++
  (if c.doEval && c.evalEveryEpoch && rankZeroGuard c then
     if c.evalOn == "dev" then
       [Event.evalDataLoad "dev",
        Event.evalReportWrite (c.outputDir ++ "/eval_results.txt")]
     else if c.evalOn == "test" then
       [Event.evalDataLoad "test",
        Event.evalReportWrite (c.outputDir ++ "/eval_results.txt")]
     else [Event.raiseError ErrTag.evalOn]
   else [])

/-- The batch loop of one epoch, `step` counting from 0 (line 317); a raise
inside a batch ends the run. -/
def runBatches (c : Config) (step : Nat) : Nat → List Event
  | 0 => []
  | n + 1 =>
    perBatchEvents c step ++
      (if batchRaises c then [] else runBatches c (step + 1) n)

/-- The epoch loop (line 312), given the number of epochs still to run;
an unknown-split raise in a nonempty epoch ends the run. -/
def runEpochs (c : Config) : Nat → List Event
  | 0 => []
  | e + 1 =>
    runBatches c 0 c.numBatches ++
      (if batchRaises c && decide (0 < c.numBatches) then []
       else runEpochs c e)

/-- `start_epoch` after lines 280-289. -/
def startEpoch (c : Config) : Nat :=
  if c.checkpointExists then c.ckptEpoch + 1 else 0

/-- Whether the training section ends in the unknown-split raise (so the
model save and the final evaluation are never reached). -/
def trainRaises (c : Config) : Bool :=
  c.doTrain && batchRaises c && decide (0 < c.numBatches) &&
    decide (startEpoch c < c.numEpochs)

/-- Lines 291-434: train (epochs `start_epoch ..< int(num_train_epochs)`,
then model/config save) or reload the model from the output directory. -/
def trainSection (c : Config) : List Event :=
  if c.doTrain then
    runEpochs c (c.numEpochs - startEpoch c) ++
      (if trainRaises c then [] else [Event.modelSave])
  else [Event.modelReload]

/-- Lines 438-507: the final evaluation, under the rank guard of line 438;
raises on an unknown split, else loads the split and writes
`test_results.txt`. -/
def finalEvalSection (c : Config) : List Event :=
  if c.doEval && rankZeroGuard c then
    if c.evalOn == "dev" then
      [Event.evalDataLoad "dev",
       Event.testReportWrite (c.outputDir ++ "/test_results.txt")]
    else if c.evalOn == "test" then
      [Event.evalDataLoad "test",
       Event.testReportWrite (c.outputDir ++ "/test_results.txt")]
    else [Event.raiseError ErrTag.evalOn]
  else []

/-- Which configuration check fires before any model or data work, in
source order (lines 163, 173, 176, 183). -/
def earlyError (c : Config) : Option ErrTag :=
  if c.gradAccumSteps < 1 then some ErrTag.gradAccum
  else if !c.doTrain && !c.doEval then some ErrTag.trainEval
  else if c.outputDirNonempty && c.doTrain then some ErrTag.outputDir
  else if c.taskName ≠ "punctuation_prediction" then some ErrTag.taskName
  else none

/-- The observable trace of one `main` run, in source order: device setup
(lines 151-159) happens first; then the configuration checks; directory
creation (line 179) precedes the task-name check (line 183); then model
loading, the optional training-data read (line 236, with the batch size
reassigned at line 167), the unconditional checkpoint load (lines 283-289),
the training section, and the final evaluation. -/
def mainTrace (c : Config) : List Event :=
  Event.deviceSetup ::
    (if c.gradAccumSteps < 1 then [Event.raiseError ErrTag.gradAccum]
     else if !c.doTrain && !c.doEval then [Event.raiseError ErrTag.trainEval]
     else if c.outputDirNonempty && c.doTrain then [Event.raiseError ErrTag.outputDir]
     else
       (if !c.outputDirExists then [Event.makeOutputDir] else []) ++
       (if c.taskName ≠ "punctuation_prediction" then
          [Event.raiseError ErrTag.taskName]
        else
          Event.modelLoad ::
            ((if c.doTrain then
                [Event.trainDataLoad (afterAccumCheck c).trainBatchSize]
              else []) ++
             (if c.checkpointExists then [Event.checkpointLoad (ckptPath c)]
              else []) ++
             trainSection c ++
             (if trainRaises c then [] else finalEvalSection c))))

/-! ## Event classifiers -/

def isCheckpointWrite : Event → Bool
  | .checkpointWrite _ => true
  | _ => false

def isCheckpointLoad : Event → Bool
  | .checkpointLoad _ => true
  | _ => false

def isReportWrite : Event → Bool
  | .evalReportWrite _ => true
  | .testReportWrite _ => true
  | _ => false

def isOptimizerStep : Event → Bool
  | .optimizerStep => true
  | _ => false

def isSchedulerStep : Event → Bool
  | .schedulerStep => true
  | _ => false

def isZeroGrad : Event → Bool
  | .zeroGrad => true
  | _ => false

def isGlobalStepIncr : Event → Bool
  | .globalStepIncr => true
  | _ => false

/-- Model loading, data reads and checkpoint reads: the "compute-device or
data work" of the error-handling claim. -/
def isDataOrModelWork : Event → Bool
  | .modelLoad => true
  | .trainDataLoad _ => true
  | .evalDataLoad _ => true
  | .checkpointLoad _ => true
  | .modelReload => true
  | _ => false

/-- Events that create or overwrite a file in the output directory. -/
def isFileWrite : Event → Bool
  | .checkpointWrite _ => true
  | .evalReportWrite _ => true
  | .testReportWrite _ => true
  | .modelSave => true
  | _ => false

def isTrainDataLoad : Event → Bool
  | .trainDataLoad _ => true
  | _ => false

/-! ## Concrete configurations used to settle individual claims -/

/-- An evaluation-only run (`--do_eval` without `--do_train`) against an
output directory that already holds a checkpoint file. -/
def cfgEvalOnly : Config :=
  { gradAccumSteps := 1, doTrain := false, doEval := true,
    evalEveryEpoch := false, evalOn := "test",
    taskName := "punctuation_prediction", localRank := -1, distRank := 0,
    outputDir := "out", outputDirExists := true, outputDirNonempty := true,
    checkpointExists := true, ckptEpoch := 0, numEpochs := 1,
    numBatches := 1, trainBatchSize := 8 }

/-- A distributed training worker (`local_rank = 1`) whose distributed
rank is 1, i.e. not the lowest-numbered worker. -/
def cfgRankOne : Config :=
  { gradAccumSteps := 1, doTrain := true, doEval := false,
    evalEveryEpoch := false, evalOn := "test",
    taskName := "punctuation_prediction", localRank := 1, distRank := 1,
    outputDir := "out", outputDirExists := false, outputDirNonempty := false,
    checkpointExists := false, ckptEpoch := 0, numEpochs := 1,
    numBatches := 1, trainBatchSize := 8 }

/-- A training run with per-batch evaluation enabled and a misspelt eval
split selector (neither `"dev"` nor `"test"`). -/
def cfgBadSplit : Config :=
  { gradAccumSteps := 1, doTrain := true, doEval := true,
    evalEveryEpoch := true, evalOn := "validation",
    taskName := "punctuation_prediction", localRank := -1, distRank := 0,
    outputDir := "out", outputDirExists := false, outputDirNonempty := false,
    checkpointExists := false, ckptEpoch := 0, numEpochs := 1,
    numBatches := 1, trainBatchSize := 8 }

/-- A training run whose configured train batch size (2) is smaller than
its gradient-accumulation step count (4). -/
def cfgSmallBatch : Config :=
  { gradAccumSteps := 4, doTrain := true, doEval := false,
    evalEveryEpoch := false, evalOn := "test",
    taskName := "punctuation_prediction", localRank := -1, distRank := 0,
    outputDir := "out", outputDirExists := false, outputDirNonempty := false,
    checkpointExists := false, ckptEpoch := 0, numEpochs := 1,
    numBatches := 1, trainBatchSize := 2 }

/-! ## Lemmas about one batch's events -/

theorem perBatch_filter_ckptWrite (c : Config) (s : Nat) :
    (perBatchEvents c s).filter isCheckpointWrite =
      [Event.checkpointWrite (ckptPath c)] := by
  unfold perBatchEvents
  repeat' split
  all_goals rfl

theorem perBatch_ckptWrite_path (c : Config) (s : Nat) (p : String)
    (h : Event.checkpointWrite p ∈ perBatchEvents c s) : p = ckptPath c := by
  have hf : Event.checkpointWrite p ∈
      (perBatchEvents c s).filter isCheckpointWrite :=
    List.mem_filter.mpr ⟨h, rfl⟩
  rw [perBatch_filter_ckptWrite] at hf
  simpa using hf

theorem perBatch_filter_opt (c : Config) (s : Nat) :
    ((perBatchEvents c s).filter isOptimizerStep).length =
      if (s + 1) % c.gradAccumSteps.toNat = 0 then 1 else 0 := by
  unfold perBatchEvents
  repeat' split
  all_goals rfl

theorem perBatch_filter_sched (c : Config) (s : Nat) :
    ((perBatchEvents c s).filter isSchedulerStep).length =
      if (s + 1) % c.gradAccumSteps.toNat = 0 then 1 else 0 := by
  unfold perBatchEvents
  repeat' split
  all_goals rfl

theorem perBatch_filter_zeroGrad (c : Config) (s : Nat) :
    ((perBatchEvents c s).filter isZeroGrad).length =
      if (s + 1) % c.gradAccumSteps.toNat = 0 then 1 else 0 := by
  unfold perBatchEvents
  repeat' split
  all_goals rfl

theorem perBatch_filter_globalStep (c : Config) (s : Nat) :
    ((perBatchEvents c s).filter isGlobalStepIncr).length =
      if (s + 1) % c.gradAccumSteps.toNat = 0 then 1 else 0 := by
  unfold perBatchEvents
  repeat' split
  all_goals rfl

/-! ## Lemmas about the batch loop -/

/-- When no batch raises, the number of events matching `P` over the batch
loop from step `s` is the number of accumulation boundaries crossed. -/
theorem runBatches_filter_count (c : Config) (P : Event → Bool)
    (hraise : batchRaises c = false)
    (hP : ∀ s, ((perBatchEvents c s).filter P).length =
      if (s + 1) % c.gradAccumSteps.toNat = 0 then 1 else 0) :
    ∀ (n s : Nat), ((runBatches c s n).filter P).length =
      (s + n) / c.gradAccumSteps.toNat - s / c.gradAccumSteps.toNat := by
  intro n
  induction n with
  | zero => intro s; simp [runBatches]
  | succ n ih =>
    intro s
    rw [runBatches, hraise]
    simp only [Bool.false_eq_true, if_false, List.filter_append,
      List.length_append, hP s, ih (s + 1)]
    have hd := Nat.succ_div s c.gradAccumSteps.toNat
    have h1 : (s + 1) / c.gradAccumSteps.toNat ≤
        (s + 1 + n) / c.gradAccumSteps.toNat :=
      Nat.div_le_div_right (Nat.le_add_right _ _)
    have h2 : s + (n + 1) = s + 1 + n := by omega
    rw [h2]
    by_cases hdvd : c.gradAccumSteps.toNat ∣ (s + 1)
    · rw [if_pos (Nat.dvd_iff_mod_eq_zero.mp hdvd)]
      rw [if_pos hdvd] at hd
      omega
    · rw [if_neg (fun h => hdvd (Nat.dvd_iff_mod_eq_zero.mpr h))]
      rw [if_neg hdvd] at hd
      omega

/-- When no batch raises, every batch of the loop saves exactly one
checkpoint, always to the same path. -/
theorem runBatches_ckptWrites (c : Config)
    (hraise : batchRaises c = false) :
    ∀ (n s : Nat),
      ((runBatches c s n).filter isCheckpointWrite).length = n ∧
      (∀ p, Event.checkpointWrite p ∈ runBatches c s n → p = ckptPath c) := by
  intro n
  induction n with
  | zero => intro s; simp [runBatches]
  | succ n ih =>
    intro s
    rw [runBatches, hraise]
    simp only [Bool.false_eq_true, if_false]
    constructor
    · rw [List.filter_append, List.length_append, perBatch_filter_ckptWrite]
      simp [(ih (s + 1)).1]
      omega
    · intro p hp
      rcases List.mem_append.mp hp with h | h
      · exact perBatch_ckptWrite_path c s p h
      · exact (ih (s + 1)).2 p h

/-! ## Claims about the batch loop -/

/-- **C4.** For every training epoch that processes `N` batches with
`gradient_accumulation_steps = k ≥ 1`, the optimizer step, scheduler
advance, gradient clearing, and global-step increment occur exactly after
every `k`-th batch (lines 337-341), so each of them happens exactly
`⌊N / k⌋` times over those `N` batches. -/
theorem optimizer_steps_every_kth_batch (c : Config) (N : Nat)
    (_hk : (1 : Int) ≤ c.gradAccumSteps) (hraise : batchRaises c = false) :
    ((runBatches c 0 N).filter isOptimizerStep).length =
        N / c.gradAccumSteps.toNat ∧
    ((runBatches c 0 N).filter isSchedulerStep).length =
        N / c.gradAccumSteps.toNat ∧
    ((runBatches c 0 N).filter isZeroGrad).length =
        N / c.gradAccumSteps.toNat ∧
    ((runBatches c 0 N).filter isGlobalStepIncr).length =
        N / c.gradAccumSteps.toNat := by
  have h0 : ∀ P : Event → Bool,
      (∀ s, ((perBatchEvents c s).filter P).length =
        if (s + 1) % c.gradAccumSteps.toNat = 0 then 1 else 0) →
      ((runBatches c 0 N).filter P).length = N / c.gradAccumSteps.toNat := by
    intro P hP
    rw [runBatches_filter_count c P hraise hP N 0]
    simp
  exact ⟨h0 _ (perBatch_filter_opt c), h0 _ (perBatch_filter_sched c),
    h0 _ (perBatch_filter_zeroGrad c), h0 _ (perBatch_filter_globalStep c)⟩

/-- Witness for `optimizer_steps_every_kth_batch`: with `k = 3` and
`N = 10` batches the optimizer steps exactly `⌊10/3⌋ = 3` times. -/
theorem optimizer_steps_every_kth_batch_witness :
    ((runBatches
        { gradAccumSteps := 3, doTrain := true, doEval := false,
          evalEveryEpoch := false, evalOn := "test",
          taskName := "punctuation_prediction", localRank := -1,
          distRank := 0, outputDir := "out", outputDirExists := false,
          outputDirNonempty := false, checkpointExists := false,
          ckptEpoch := 0, numEpochs := 1, numBatches := 10,
          trainBatchSize := 32 } 0 10).filter isOptimizerStep).length = 3 :=
  ((optimizer_steps_every_kth_batch _ 10 (by decide) (by decide)).1).trans
    (by decide)

/-- **C5.** During training, after every processed batch — whether or not
it is a gradient-accumulation boundary — a checkpoint containing exactly
the five fields `{epoch, model state, optimizer state, scheduler state,
running loss}` is written, always to the single checkpoint path
`output_dir/checkpoint.ckt`, overwriting the previously written file:
over `n` batches there are exactly `n` checkpoint writes, every one to
`ckptPath c`, and the saved dict's keys are exactly the five of
lines 344-350. -/
theorem checkpoint_written_every_batch (c : Config) (s n : Nat)
    (ck : Checkpoint) (hraise : batchRaises c = false) :
    ((runBatches c s n).filter isCheckpointWrite).length = n ∧
    (∀ p, Event.checkpointWrite p ∈ runBatches c s n → p = ckptPath c) ∧
    (checkpointPayload ck).map Prod.fst =
      ["epoch", "model_state_dict", "optimizer_state_dict", "loss",
       "scheduler"] := by
  refine ⟨(runBatches_ckptWrites c hraise n s).1,
    (runBatches_ckptWrites c hraise n s).2, rfl⟩

/-- Witness for `checkpoint_written_every_batch`: 4 batches yield exactly
4 checkpoint writes. -/
theorem checkpoint_written_every_batch_witness :
    ((runBatches
        { gradAccumSteps := 2, doTrain := true, doEval := false,
          evalEveryEpoch := false, evalOn := "test",
          taskName := "punctuation_prediction", localRank := -1,
          distRank := 0, outputDir := "out", outputDirExists := false,
          outputDirNonempty := false, checkpointExists := false,
          ckptEpoch := 0, numEpochs := 1, numBatches := 4,
          trainBatchSize := 32 } 0 4).filter isCheckpointWrite).length = 4 :=
  (checkpoint_written_every_batch _ 0 4 ⟨0, 0, 0, 0, 0⟩ (by decide)).1

/-! ## Lemmas about the decoding walk -/

/-- `label_map` has exactly the keys `1 .. len(label_list)`. -/
theorem labelMapGet_isSome_iff (l : List String) (i : Nat) :
    (labelMapGet l i).isSome = true ↔ 1 ≤ i ∧ i ≤ l.length := by
  unfold labelMapGet
  split
  · simp [*]
  · rename_i h0
    constructor
    · intro h
      by_contra hn
      rw [List.get?_eq_none.mpr (by omega)] at h
      simp at h
    · intro h
      rw [List.get?_eq_get (by omega)]
      rfl

/-- If the walk over an example does not fail, every id it looked up — the
ids strictly before the first occurrence of `len(label_map)` — was a key of
the label map. -/
theorem decodeRowAux_keys (l : List String) :
    ∀ (ts ps : List Nat) (a1 a2 : List String),
      decodeRowAux l ts ps a1 a2 ≠ none →
      ∀ t ∈ ts.takeWhile (fun t => t != l.length),
        (labelMapGet l t).isSome = true := by
  intro ts
  induction ts with
  | nil => intro ps a1 a2 _ t ht; simp at ht
  | cons t ts ih =>
    intro ps a1 a2 h u hu
    by_cases hstop : t = l.length
    · rw [List.takeWhile_cons, if_neg (by simp [hstop])] at hu
      simp at hu
    · simp only [decodeRowAux, if_neg hstop] at h
      rw [List.takeWhile_cons, if_pos (by simp [hstop])] at hu
      split at h
      · exact absurd rfl h
      · exact absurd rfl h
      · rename_i name p ps' hmg
        rcases List.mem_cons.mp hu with rfl | hu'
        · simp [hmg]
        · exact ih ps' _ _ h u hu'

/-- Where the walk flushes: whenever the stop value `len(label_map)` occurs
in the tail, the predictions row is long enough, and every id before the
first stop value is a key, the walk succeeds and flushes exactly the
positions strictly before the first occurrence of `len(label_map)`. -/
theorem decodeRowAux_flush (l : List String) :
    ∀ (ts ps : List Nat) (a1 a2 : List String),
      l.length ∈ ts →
      ts.length ≤ ps.length →
      (∀ t ∈ ts.takeWhile (fun t => t != l.length),
        (labelMapGet l t).isSome = true) →
      decodeRowAux l ts ps a1 a2 =
        some (a1.reverse ++
                (ts.takeWhile (fun t => t != l.length)).map
                  (fun t => (labelMapGet l t).getD "PAD"),
              a2.reverse ++
                (ps.take (ts.takeWhile (fun t => t != l.length)).length).map
                  (decodePredId l)) := by
  intro ts
  induction ts with
  | nil => intro ps a1 a2 hmem; simp at hmem
  | cons t ts ih =>
    intro ps a1 a2 hmem hlen hkeys
    by_cases hstop : t = l.length
    · simp only [decodeRowAux, if_pos hstop]
      rw [List.takeWhile_cons, if_neg (by simp [hstop])]
      simp
    · have hmem' : l.length ∈ ts := by
        rcases List.mem_cons.mp hmem with h | h
        · exact absurd h.symm hstop
        · exact h
      cases ps with
      | nil => simp at hlen
      | cons p ps' =>
        have hkey : (labelMapGet l t).isSome = true := by
          apply hkeys
          rw [List.takeWhile_cons, if_pos (by simp [hstop])]
          exact List.mem_cons_self _ _
        obtain ⟨name, hname⟩ := Option.isSome_iff_exists.mp hkey
        have hkeys' : ∀ u ∈ ts.takeWhile (fun t => t != l.length),
            (labelMapGet l u).isSome = true := by
          intro u hu
          apply hkeys
          rw [List.takeWhile_cons, if_pos (by simp [hstop])]
          exact List.mem_cons_of_mem _ hu
        simp only [decodeRowAux, if_neg hstop, hname]
        rw [ih ps' (name :: a1) (decodePredId l p :: a2) hmem'
            (by simpa using hlen) hkeys']
        rw [List.takeWhile_cons, if_pos (by simp [hstop])]
        simp [hname, List.append_assoc]

/-! ## Claims about the decoding loop -/

/-- **C10.** True-label decoding in the evaluation loop indexes the label
map with no fallback: if an example's walk succeeds, then every label id
from position 1 up to (but excluding) the first position whose id equals
`len(label_map)` is a key of the label map, an integer in
`1 .. len(label_list)`.  Contrapositively, any other pre-stop id (such as
`0` or `len(label_list) + 1`) makes the walk fail (`none`) rather than
being skipped. -/
theorem true_decode_requires_map_keys (l : List String) (row preds : List Nat)
    (h : (decodeExample l row preds).isSome = true) :
    ∀ t ∈ (row.drop 1).takeWhile (fun t => t != l.length),
      1 ≤ t ∧ t ≤ l.length := by
  intro t ht
  have hne : decodeRowAux l (row.drop 1) (preds.drop 1) [] [] ≠ none :=
    Option.isSome_iff_ne_none.mp h
  exact (labelMapGet_isSome_iff l t).mp
    (decodeRowAux_keys l (row.drop 1) (preds.drop 1) [] [] hne t ht)

/-- Witness for `true_decode_requires_map_keys`: with
`label_list = ["O", "PERIOD"]` the row `[0, 1, 2, 0]` decodes successfully
(the walk stops at the id `2 = len(label_map)`), and its single pre-stop
id `1` is indeed a key. -/
theorem true_decode_requires_map_keys_witness : 1 ≤ 1 ∧ 1 ≤ 2 := by
  have h := true_decode_requires_map_keys ["O", "PERIOD"] [0, 1, 2, 0]
    [0, 1, 1, 0] (by decide) 1 (by decide)
  exact h

/-- **C8.** For every position decoded during evaluation, a predicted label
id with no entry in the label map is decoded to the padding placeholder
name `'PAD'` instead of raising an error (`label_map.get(..., 'PAD')`,
lines 410 and 498); `decodePredId` is total by construction. -/
theorem pred_decode_fallback_pad (l : List String) (i : Nat)
    (h : labelMapGet l i = none) : decodePredId l i = "PAD" := by
  simp [decodePredId, h]

/-- Witness for `pred_decode_fallback_pad`: `5` is not a key of the
one-label map, and decodes to `"PAD"`. -/
theorem pred_decode_fallback_pad_witness : decodePredId ["O"] 5 = "PAD" :=
  pred_decode_fallback_pad ["O"] 5 (by decide)

/-- **C1, counterexample.** The claim says the evaluation loop stops
exactly at the first position whose label id equals the sentinel used when
building `label_id`, which equals `num_labels = len(label_list) + 1`.  On
the code it is false: the loop breaks at `len(label_map) = len(label_list)`
(lines 404, 492), one less than the sentinel.  With `label_list = ["O"]`
the spec-built row for the single word labelled `"O"` is `[0, 1, 2, 0]`
(sentinel `2 = num_labels` at position 2), yet the loop stops at position
1 — the real word's position, since its id `1` equals `len(label_map)` —
flushing empty lists instead of the word's labels. -/
theorem evalLoop_stop_misses_spec_sentinel :
    buildLabelId ["O"] ["O"] 4 = [0, 1, 2, 0] ∧
    evalLoopStopIndex ["O"] (buildLabelId ["O"] ["O"] 4) = some 1 ∧
    specSentinelIndex ["O"] (buildLabelId ["O"] ["O"] 4) = some 2 ∧
    decodeExample ["O"] (buildLabelId ["O"] ["O"] 4) [0, 1, 1, 0] =
      some ([], []) := by
  decide

/-- **C1, amended.** The evaluation decoding loop, walking the example's
`label_id` row from position 1 onward, stops processing the example and
flushes its accumulated true/predicted label names exactly at the first
position whose label id equals `len(label_map) = len(label_list)` — not at
the sentinel `num_labels = len(label_list) + 1` of the claim: provided a
stop value occurs from position 1 onward, the predictions row is at least
as long as the label row, and the ids before the first stop value are keys
of the label map, the flushed lists are the decodings of exactly the
positions strictly before that first stop position. -/
theorem evalLoop_flushes_before_first_stop (l : List String)
    (row preds : List Nat)
    (hmem : l.length ∈ row.drop 1)
    (hlen : row.length ≤ preds.length)
    (hkeys : ∀ t ∈ (row.drop 1).takeWhile (fun t => t != l.length),
      (labelMapGet l t).isSome = true) :
    decodeExample l row preds =
      some (((row.drop 1).takeWhile (fun t => t != l.length)).map
              (fun t => (labelMapGet l t).getD "PAD"),
            ((preds.drop 1).take
                ((row.drop 1).takeWhile (fun t => t != l.length)).length).map
              (decodePredId l)) := by
  unfold decodeExample
  exact decodeRowAux_flush l (row.drop 1) (preds.drop 1) [] [] hmem
    (by simp; omega) hkeys

/-- Witness for `evalLoop_flushes_before_first_stop`: with
`label_list = ["O", "PERIOD"]` and row `[0, 1, 2, 0]`, the walk stops at
the id `2 = len(label_map)` at position 2 and flushes the decoding of the
single position before it. -/
theorem evalLoop_flushes_before_first_stop_witness :
    decodeExample ["O", "PERIOD"] [0, 1, 2, 0] [0, 1, 9, 0] =
      some (["O"], ["O"]) :=
  (evalLoop_flushes_before_first_stop ["O", "PERIOD"] [0, 1, 2, 0]
    [0, 1, 9, 0] (by decide) (by decide) (by decide)).trans (by decide)

/-! ## Claims about checkpoint restoration -/

/-- **C3.** Whenever a checkpoint exists at process start, training
resumes at `start_epoch = checkpoint.epoch + 1` with the model state,
optimizer state, scheduler state, and running loss all restored from the
checkpoint; when no checkpoint exists, `start_epoch = 0`.  The same holds
of `startEpoch` on the control-flow model. -/
theorem resume_from_checkpoint (ck : Checkpoint) (im io isch : Nat)
    (c : Config) :
    (initResume im io isch (some ck)).startEpoch = ck.epoch + 1 ∧
    (initResume im io isch (some ck)).modelState = ck.modelStateDict ∧
    (initResume im io isch (some ck)).optimizerState = ck.optimizerStateDict ∧
    (initResume im io isch (some ck)).schedulerState = ck.scheduler ∧
    (initResume im io isch (some ck)).trLoss = ck.loss ∧
    (initResume im io isch none).startEpoch = 0 ∧
    (c.checkpointExists = true → startEpoch c = c.ckptEpoch + 1) ∧
    (c.checkpointExists = false → startEpoch c = 0) := by
  refine ⟨rfl, rfl, rfl, rfl, rfl, rfl, ?_, ?_⟩ <;>
    intro h <;> simp [startEpoch, h]

/-- Witness for `resume_from_checkpoint`: a resumed run after epoch 4
starts at epoch 5. -/
theorem resume_from_checkpoint_witness :
    (initResume 0 0 0 (some ⟨4, 7, 8, 9, 10⟩)).startEpoch = 5 :=
  (resume_from_checkpoint ⟨4, 7, 8, 9, 10⟩ 0 0 0
    { gradAccumSteps := 1, doTrain := true, doEval := false,
      evalEveryEpoch := false, evalOn := "test",
      taskName := "punctuation_prediction", localRank := -1, distRank := 0,
      outputDir := "out", outputDirExists := false,
      outputDirNonempty := false, checkpointExists := false, ckptEpoch := 0,
      numEpochs := 1, numBatches := 1, trainBatchSize := 8 }).1

/-! ## Lemmas locating events in the whole trace -/

theorem runBatches_filter_nil (c : Config) (P : Event → Bool)
    (hP : ∀ s, (perBatchEvents c s).filter P = []) :
    ∀ (n s : Nat), (runBatches c s n).filter P = [] := by
  intro n
  induction n with
  | zero => intro s; simp [runBatches]
  | succ n ih =>
    intro s
    rw [runBatches, List.filter_append, hP s]
    split <;> simp [ih]

theorem runEpochs_filter_nil (c : Config) (P : Event → Bool)
    (hP : ∀ s, (perBatchEvents c s).filter P = []) :
    ∀ n, (runEpochs c n).filter P = [] := by
  intro n
  induction n with
  | zero => simp [runEpochs]
  | succ n ih =>
    rw [runEpochs, List.filter_append, runBatches_filter_nil c P hP]
    split <;> simp [ih]

theorem perBatch_filter_ckptLoad_nil (c : Config) (s : Nat) :
    (perBatchEvents c s).filter isCheckpointLoad = [] := by
  unfold perBatchEvents
  repeat' split
  all_goals rfl

theorem perBatch_filter_trainLoad_nil (c : Config) (s : Nat) :
    (perBatchEvents c s).filter isTrainDataLoad = [] := by
  unfold perBatchEvents
  repeat' split
  all_goals rfl

theorem perBatch_filter_report_nil (c : Config)
    (hg : rankZeroGuard c = false) (s : Nat) :
    (perBatchEvents c s).filter isReportWrite = [] := by
  unfold perBatchEvents
  repeat' split
  all_goals simp_all [isReportWrite]

theorem finalEval_filter_ckptLoad_nil (c : Config) :
    (finalEvalSection c).filter isCheckpointLoad = [] := by
  unfold finalEvalSection
  repeat' split
  all_goals rfl

theorem finalEval_filter_trainLoad_nil (c : Config) :
    (finalEvalSection c).filter isTrainDataLoad = [] := by
  unfold finalEvalSection
  repeat' split
  all_goals rfl

theorem finalEval_filter_report_nil (c : Config)
    (hg : rankZeroGuard c = false) :
    (finalEvalSection c).filter isReportWrite = [] := by
  unfold finalEvalSection
  repeat' split
  all_goals simp_all [isReportWrite]

theorem trainSection_filter_ckptLoad_nil (c : Config) :
    (trainSection c).filter isCheckpointLoad = [] := by
  unfold trainSection
  split
  · rw [List.filter_append,
      runEpochs_filter_nil c _ (perBatch_filter_ckptLoad_nil c)]
    split <;> rfl
  · rfl

theorem trainSection_filter_trainLoad_nil (c : Config) :
    (trainSection c).filter isTrainDataLoad = [] := by
  unfold trainSection
  split
  · rw [List.filter_append,
      runEpochs_filter_nil c _ (perBatch_filter_trainLoad_nil c)]
    split <;> rfl
  · rfl

theorem trainSection_filter_report_nil (c : Config)
    (hg : rankZeroGuard c = false) :
    (trainSection c).filter isReportWrite = [] := by
  unfold trainSection
  split
  · rw [List.filter_append,
      runEpochs_filter_nil c _ (perBatch_filter_report_nil c hg)]
    split <;> rfl
  · rfl

/-- The checkpoint loads in a whole run: exactly one, at process start,
whenever the file exists and no early configuration error fires. -/
theorem mainTrace_filter_ckptLoad (c : Config) :
    (mainTrace c).filter isCheckpointLoad =
      if earlyError c = none then
        if c.checkpointExists then [Event.checkpointLoad (ckptPath c)]
        else []
      else [] := by
  unfold mainTrace earlyError
  repeat' split
  all_goals simp_all [List.filter_append, trainSection_filter_ckptLoad_nil,
    finalEval_filter_ckptLoad_nil, isCheckpointLoad]

/-- The training-data loads in a whole run: exactly one, carrying the
reassigned batch size, whenever training is requested and no early
configuration error fires. -/
theorem mainTrace_filter_trainLoad (c : Config) :
    (mainTrace c).filter isTrainDataLoad =
      if earlyError c = none then
        if c.doTrain then
          [Event.trainDataLoad ((afterAccumCheck c).trainBatchSize)]
        else []
      else [] := by
  unfold mainTrace earlyError
  repeat' split
  all_goals simp_all [List.filter_append, trainSection_filter_trainLoad_nil,
    finalEval_filter_trainLoad_nil, isTrainDataLoad]

/-! ## Claims about the whole-run control flow -/

/-- **C2, counterexample.** The claim says the checkpoint file is never
read during evaluation-only runs.  On the code the load at lines 283-289
is unconditional: in the evaluation-only configuration `cfgEvalOnly`
(`do_train` false, `do_eval` true, checkpoint file present) the run does
load the checkpoint. -/
theorem checkpointLoad_in_eval_only_run :
    cfgEvalOnly.doTrain = false ∧ cfgEvalOnly.checkpointExists = true ∧
    Event.checkpointLoad "out/checkpoint.ckt" ∈ mainTrace cfgEvalOnly := by
  decide

/-- **C2, amended.** The checkpoint file is read at most once, at process
start, whenever it exists and the run passes the early configuration
checks — regardless of whether training is requested; with no checkpoint
file there is no load. -/
theorem checkpoint_read_at_most_once (c : Config) :
    ((mainTrace c).filter isCheckpointLoad).length ≤ 1 ∧
    (c.checkpointExists = false →
      (mainTrace c).filter isCheckpointLoad = []) ∧
    (earlyError c = none → c.checkpointExists = true →
      Event.checkpointLoad (ckptPath c) ∈ mainTrace c) := by
  have h := mainTrace_filter_ckptLoad c
  refine ⟨?_, ?_, ?_⟩
  · rw [h]
    split
    · split <;> simp
    · simp
  · intro hce
    rw [h, hce]
    split <;> simp
  · intro he hce
    apply List.mem_of_mem_filter (p := isCheckpointLoad)
    rw [h, he, hce]
    simp

/-- Witness for `checkpoint_read_at_most_once`: the evaluation-only run
with an existing checkpoint loads it. -/
theorem checkpoint_read_at_most_once_witness :
    Event.checkpointLoad (ckptPath cfgEvalOnly) ∈ mainTrace cfgEvalOnly :=
  (checkpoint_read_at_most_once cfgEvalOnly).2.2 (by decide) (by decide)

/-- **C6, counterexample.** The claim says a distributed worker whose rank
is not 0 never writes the checkpoint file.  The checkpoint save at lines
343-350 is unguarded: the rank-1 training worker `cfgRankOne` writes it
after its batch. -/
theorem nonzero_rank_writes_checkpoint :
    cfgRankOne.localRank ≠ -1 ∧ cfgRankOne.distRank ≠ 0 ∧
    Event.checkpointWrite "out/checkpoint.ckt" ∈ mainTrace cfgRankOne := by
  decide

/-- **C6, amended.** In distributed mode only the rank-0 worker writes
evaluation/test report files (the guards at lines 352 and 438): a worker
whose rank is not 0 writes no eval or test report; the checkpoint file,
however, is written by every training worker regardless of rank. -/
theorem nonzero_rank_writes_no_reports (c : Config)
    (h1 : c.localRank ≠ -1) (h2 : c.distRank ≠ 0) :
    (mainTrace c).filter isReportWrite = [] := by
  have hg : rankZeroGuard c = false := by
    simp [rankZeroGuard, h1, h2]
  unfold mainTrace
  repeat' split
  all_goals simp_all [List.filter_append, trainSection_filter_report_nil c hg,
    finalEval_filter_report_nil c hg, isReportWrite]

/-- Witness for `nonzero_rank_writes_no_reports`: the rank-1 worker's
trace contains no report write. -/
theorem nonzero_rank_writes_no_reports_witness :
    (mainTrace cfgRankOne).filter isReportWrite = [] :=
  nonzero_rank_writes_no_reports cfgRankOne (by decide) (by decide)

/-- **C7, counterexample.** The claim says every configuration error —
including an unknown eval split selector — is raised before any
compute-device or data work and before any checkpoint file is created.
On the code the unknown-split error (lines 353-358) fires inside the batch
loop: in `cfgBadSplit` (training with per-batch evaluation and
`eval_on = "validation"`) the error is raised after device setup, model
and training-data loading, an optimizer step, and a checkpoint write. -/
theorem evalOn_error_after_work :
    mainTrace cfgBadSplit =
      [Event.deviceSetup, Event.makeOutputDir, Event.modelLoad,
       Event.trainDataLoad 8, Event.optimizerStep, Event.schedulerStep,
       Event.zeroGrad, Event.globalStepIncr,
       Event.checkpointWrite "out/checkpoint.ckt",
       Event.raiseError ErrTag.evalOn] := by
  decide

/-- **C7, amended.** The four configuration checks made up front — invalid
`gradient_accumulation_steps`, neither training nor evaluation requested,
a non-empty pre-existing output directory on fresh training, and an
unknown task name — are fatal and fire before any model loading, data
work, checkpoint I/O or output-file creation (device selection happens
first, and directory creation may precede the task-name error); the
unknown eval split selector, by contrast, is only checked when an
evaluation pass actually starts. -/
theorem early_config_errors_before_work (c : Config) (tag : ErrTag)
    (h : earlyError c = some tag) :
    (mainTrace c).head? = some Event.deviceSetup ∧
    Event.raiseError tag ∈ mainTrace c ∧
    (mainTrace c).filter (fun e => isDataOrModelWork e || isFileWrite e)
      = [] := by
  unfold earlyError at h
  unfold mainTrace
  repeat' split at h
  · cases h
    refine ⟨rfl, ?_, ?_⟩ <;>
      simp_all [List.filter_append, isDataOrModelWork, isFileWrite]
  · cases h
    refine ⟨rfl, ?_, ?_⟩ <;>
      (repeat' split) <;>
      simp_all [List.filter_append, isDataOrModelWork, isFileWrite]
  · cases h
    refine ⟨rfl, ?_, ?_⟩ <;>
      (repeat' split) <;>
      simp_all [List.filter_append, isDataOrModelWork, isFileWrite]
  · cases h
    refine ⟨rfl, ?_, ?_⟩ <;>
      (repeat' split) <;>
      simp_all [List.filter_append, isDataOrModelWork, isFileWrite]
  · simp at h

/-- Witness for `early_config_errors_before_work`: with
`gradient_accumulation_steps = 0` the whole trace is device setup followed
by the error. -/
theorem early_config_errors_before_work_witness :
    Event.raiseError ErrTag.gradAccum ∈
      mainTrace { cfgRankOne with gradAccumSteps := 0 } :=
  (early_config_errors_before_work { cfgRankOne with gradAccumSteps := 0 }
    ErrTag.gradAccum (by decide)).2.1

/-- **C9.** Every training `DataLoader` in a run is built with the batch
size reassigned at line 167 — the configured `train_batch_size`
integer-divided by `gradient_accumulation_steps` — never with the
configured value itself; when `gradient_accumulation_steps` exceeds the
configured `train_batch_size`, that batch size is 0. -/
theorem train_loader_batch_size_divided (c : Config) :
    (∀ b, Event.trainDataLoad b ∈ mainTrace c →
      b = c.trainBatchSize / c.gradAccumSteps.toNat) ∧
    (c.trainBatchSize < c.gradAccumSteps.toNat →
      ∀ b, Event.trainDataLoad b ∈ mainTrace c → b = 0) := by
  have key : ∀ b, Event.trainDataLoad b ∈ mainTrace c →
      b = c.trainBatchSize / c.gradAccumSteps.toNat := by
    intro b hb
    have hf : Event.trainDataLoad b ∈ (mainTrace c).filter isTrainDataLoad :=
      List.mem_filter.mpr ⟨hb, rfl⟩
    rw [mainTrace_filter_trainLoad] at hf
    split at hf
    · split at hf
      · simpa [afterAccumCheck] using hf
      · simp at hf
    · simp at hf
  refine ⟨key, fun hlt b hb => ?_⟩
  rw [key b hb]
  exact Nat.div_eq_of_lt hlt

/-- Witness for `train_loader_batch_size_divided`: in `cfgSmallBatch`
(batch size 2, accumulation 4) the loader's batch size is `2 / 4 = 0`. -/
theorem train_loader_batch_size_divided_witness :
    (0 : Nat) = cfgSmallBatch.trainBatchSize /
      cfgSmallBatch.gradAccumSteps.toNat :=
  (train_loader_batch_size_divided cfgSmallBatch).1 0 (by decide)

end VNPunc
